import Mathlib

/- Verification of the ShipOrbit backend spec against the source.

   Part 1: payment reconciliation (src/payments/models.py, serializers.py, views.py).
   The payment flow is embedded over exact rationals for money amounts, strings for
   statuses and identifiers, and abstract natural-number timestamps.  Database rows
   are explicit structures; saving a row is a pure state update. -/

/-- Shipment row (src/shipper/models.py): only its status field is touched by the
payment flow. -/
structure Shipment where
  status : String
deriving DecidableEq

/-- Invoice row (src/payments/models.py lines 6-43).  paid_at is an abstract
timestamp, none until first set. -/
structure Invoice where
  invoice_number : String
  status : String
  amount : ℚ
  driver_assist_fee : ℚ
  total_amount : ℚ
  paid_at : Option Nat
deriving DecidableEq

/-- Invoice.save (src/payments/models.py lines 30-39): generates an invoice number
when the field is blank (the uuid hex fragment is supplied as fresh) and always
recomputes total_amount = amount + driver_assist_fee before writing. -/
def Invoice.save (fresh : String) (inv : Invoice) : Invoice :=
  { inv with
    invoice_number := if inv.invoice_number = "" then "INV-" ++ fresh else inv.invoice_number
    total_amount := inv.amount + inv.driver_assist_fee }

/-- Payment row (src/payments/models.py lines 46-77). -/
structure Payment where
  stripe_payment_intent_id : String
  status : String
  amount : ℚ
  failure_reason : String
deriving DecidableEq

/-- One payment together with its invoice and the invoiced shipment, the unit of
state every reconciliation entry point acts on. -/
structure PayState where
  payment : Payment
  invoice : Invoice
  shipment : Shipment
deriving DecidableEq

/-- PaymentIntentCreateSerializer._map_stripe_status
(src/payments/serializers.py lines 221-231): dictionary lookup with default
"pending". -/
def map_stripe_status_create (stripe_status : String) : String :=
  if stripe_status = "requires_payment_method" then "failed"
  else if stripe_status = "requires_confirmation" then "pending"
  else if stripe_status = "requires_action" then "requires_action"
  else if stripe_status = "processing" then "processing"
  else if stripe_status = "succeeded" then "succeeded"
  else if stripe_status = "canceled" then "cancelled"
  else "pending"

/-- PaymentConfirmSerializer._map_stripe_status
(src/payments/serializers.py lines 285-295): textually identical dictionary. -/
def map_stripe_status_confirm (stripe_status : String) : String :=
  if stripe_status = "requires_payment_method" then "failed"
  else if stripe_status = "requires_confirmation" then "pending"
  else if stripe_status = "requires_action" then "requires_action"
  else if stripe_status = "processing" then "processing"
  else if stripe_status = "succeeded" then "succeeded"
  else if stripe_status = "canceled" then "cancelled"
  else "pending"

/-- stripe_status_map dictionary inside payment_status
(src/payments/views.py lines 142-151), again with default "pending". -/
def stripe_status_map_poll (stripe_status : String) : String :=
  if stripe_status = "requires_payment_method" then "failed"
  else if stripe_status = "requires_confirmation" then "pending"
  else if stripe_status = "requires_action" then "requires_action"
  else if stripe_status = "processing" then "processing"
  else if stripe_status = "succeeded" then "succeeded"
  else if stripe_status = "canceled" then "cancelled"
  else "pending"

/-- PaymentIntentCreateSerializer._mark_payment_successful
(src/payments/serializers.py lines 207-219): unconditionally marks the payment
succeeded, the invoice paid with paid_at = now, and the shipment inprogress. -/
def mark_payment_successful (now : Nat) (fresh : String) (s : PayState) : PayState :=
  { payment := { s.payment with status := "succeeded" }
    invoice := Invoice.save fresh { s.invoice with status := "paid", paid_at := some now }
    shipment := { s.shipment with status := "inprogress" } }

/-- PaymentConfirmSerializer._mark_payment_successful
(src/payments/serializers.py lines 297-309): textually identical to the create
serializer's copy. -/
def mark_payment_successful_confirm (now : Nat) (fresh : String) (s : PayState) : PayState :=
  { payment := { s.payment with status := "succeeded" }
    invoice := Invoice.save fresh { s.invoice with status := "paid", paid_at := some now }
    shipment := { s.shipment with status := "inprogress" } }

/-- Success branch of stripe_webhook for a matching payment
(src/payments/views.py lines 200-218): payment saved as succeeded, invoice saved
as paid with paid_at = now, shipment saved as inprogress, all unconditionally. -/
def webhook_mark_succeeded (now : Nat) (fresh : String) (s : PayState) : PayState :=
  { payment := { s.payment with status := "succeeded" }
    invoice := Invoice.save fresh { s.invoice with status := "paid", paid_at := some now }
    shipment := { s.shipment with status := "inprogress" } }

/-- Reconciliation core of payment_status (src/payments/views.py lines 129-163):
intent_status is what stripe.PaymentIntent.retrieve reported; the update runs only
when the mapped status differs from the local one, and the success side effects
only when the invoice is not already paid. -/
def payment_status_update (intent_status : String) (now : Nat) (fresh : String)
    (s : PayState) : PayState :=
  let new_status := stripe_status_map_poll intent_status
  if s.payment.status ≠ new_status then
    let after_payment : PayState := { s with payment := { s.payment with status := new_status } }
    if new_status = "succeeded" ∧ s.invoice.status ≠ "paid" then
      { after_payment with
        invoice := Invoice.save fresh { s.invoice with status := "paid", paid_at := some now }
        shipment := { s.shipment with status := "inprogress" } }
    else after_payment
  else s

/-- Stripe PaymentIntent as far as the serializers consume it. -/
structure StripeIntent where
  id : String
  client_secret : String
  status : String
deriving DecidableEq

/-- PaymentConfirmSerializer.confirm_payment (src/payments/serializers.py lines
252-283): stripe is the outcome of stripe.PaymentIntent.confirm; on success the
payment status is re-mapped and saved, and the success transition applied when
stripe reports succeeded.  The returned Bool is the requires_action flag. -/
def confirm_payment (stripe : Except String StripeIntent) (now : Nat) (fresh : String)
    (s : PayState) : Except String (PayState × String × Bool) :=
  match stripe with
  | .error e => .error ("Payment confirmation failed: " ++ e)
  | .ok intent =>
      let s1 : PayState :=
        { s with payment := { s.payment with status := map_stripe_status_confirm intent.status } }
      let s2 := if intent.status = "succeeded" then mark_payment_successful_confirm now fresh s1 else s1
      .ok (s2, intent.status,
        intent.status == "requires_action" || intent.status == "requires_source_action")

/-- Data object carried by a Stripe webhook event. -/
structure StripeEventObject where
  id : String
  last_payment_error_message : Option String
deriving DecidableEq

/-- Stripe webhook event after signature verification. -/
structure StripeEvent where
  type : String
  object : StripeEventObject
deriving DecidableEq

/-- Outcomes of stripe.Webhook.construct_event other than a verified event. -/
inductive ConstructEventError where
  | valueError
  | signatureVerificationError
deriving DecidableEq

/-- HTTP response of the webhook endpoint (body summarised as a string). -/
structure WebhookResponse where
  body : String
  http_status : Nat
deriving DecidableEq

/-- stripe_webhook (src/payments/views.py lines 183-245).  The payment database is
a list of PayState records; Payment.objects.get by the unique intent id followed
by save is modelled as updating every record whose payment carries that id, and
the DoesNotExist / pass handler as the identity update. -/
def stripe_webhook (construct : Except ConstructEventError StripeEvent) (now : Nat)
    (fresh : String) (db : List PayState) : List PayState × WebhookResponse :=
  match construct with
  | .error .valueError => (db, { body := "Invalid payload", http_status := 400 })
  | .error .signatureVerificationError => (db, { body := "Invalid signature", http_status := 400 })
  | .ok event =>
      let db1 :=
        if event.type = "payment_intent.succeeded" then
          db.map fun r =>
            if r.payment.stripe_payment_intent_id = event.object.id then
              webhook_mark_succeeded now fresh r
            else r
        else if event.type = "payment_intent.payment_failed" then
          db.map fun r =>
            if r.payment.stripe_payment_intent_id = event.object.id then
              let reason := event.object.last_payment_error_message.getD "Unknown error"
              { r with payment := { r.payment with status := "failed", failure_reason := reason } }
            else r
        else if event.type = "payment_intent.requires_action" then
          db.map fun r =>
            if r.payment.stripe_payment_intent_id = event.object.id then
              { r with payment := { r.payment with status := "requires_action" } }
            else r
        else db
      (db1, { body := "success", http_status := 200 })

/-- Result dictionary returned by PaymentIntentCreateSerializer.create on
success. -/
structure PaymentResult where
  status : String
  requires_action : Bool
  client_secret : String
deriving DecidableEq

/-- Persistent outcome of PaymentIntentCreateSerializer.create: the invoice row
for the shipment after the call (none when deleted), the created payment row, the
shipment, and the returned result or raised validation error. -/
structure CreateOutput where
  invoice_row : Option Invoice
  payment_row : Option Payment
  shipment_row : Shipment
  result : Except String PaymentResult

/-- PaymentIntentCreateSerializer.create (src/payments/serializers.py lines
101-205).  pre_invoice is shipment.invoice when one already exists; stripe is the
combined outcome of the Stripe customer and PaymentIntent calls inside the try
block; now and fresh stand for timezone.now() and the uuid hex. -/
def payment_intent_create (pre_invoice : Option Invoice) (shipment_base_price : Option ℚ)
    (include_driver_assist : Bool) (stripe : Except String StripeIntent)
    (shipment : Shipment) (now : Nat) (fresh : String) : CreateOutput :=
  let invoice : Invoice :=
    match pre_invoice with
    | some inv => inv
    | none =>
        Invoice.save fresh
          { invoice_number := ""
            status := "pending"
            amount := shipment_base_price.getD 0
            driver_assist_fee := if include_driver_assist then 150 else 0
            total_amount := 0
            paid_at := none }
  match stripe with
  | .error e =>
      -- Except block (lines 201-205): `if not hasattr(shipment, "invoice") or
      -- shipment.invoice == invoice: invoice.delete()`.  At this point the
      -- shipment's one-to-one cache holds exactly this invoice in both branches
      -- (read in the pre-existing branch, set by Invoice.objects.create in the
      -- other), so hasattr is true and shipment.invoice is invoice itself.
      let shipment_invoice : Invoice := invoice
      { invoice_row := if ¬ (True : Prop) ∨ shipment_invoice = invoice then none else some invoice
        payment_row := none
        shipment_row := shipment
        result := .error ("Payment failed: " ++ e) }
  | .ok intent =>
      let payment : Payment :=
        { stripe_payment_intent_id := intent.id
          status := map_stripe_status_create intent.status
          amount := invoice.total_amount
          failure_reason := "" }
      if intent.status = "succeeded" then
        let s := mark_payment_successful now fresh
          { payment := payment, invoice := invoice, shipment := shipment }
        { invoice_row := some s.invoice
          payment_row := some s.payment
          shipment_row := s.shipment
          result := .ok { status := intent.status, requires_action := false
                          client_secret := intent.client_secret } }
      else if intent.status = "requires_action" ∨ intent.status = "requires_source_action" then
        { invoice_row := some invoice
          payment_row := some { payment with status := "requires_action" }
          shipment_row := shipment
          result := .ok { status := intent.status, requires_action := true
                          client_secret := intent.client_secret } }
      else if intent.status = "requires_payment_method" then
        { invoice_row := some invoice
          payment_row := some { payment with status := "failed", failure_reason := "Payment method declined" }
          shipment_row := shipment
          result := .ok { status := intent.status, requires_action := false
                          client_secret := intent.client_secret } }
      else
        { invoice_row := some invoice
          payment_row := some payment
          shipment_row := shipment
          result := .ok { status := intent.status, requires_action := false
                          client_secret := intent.client_secret } }

/- Part 2: the quote engine (src/shipper/views.py calculate_distance_price and
   src/shipper/util/*).  Python floats are idealised as real numbers; Python's
   round (banker's rounding, used on both float and Decimal here) is modelled by
   round_half_even; int() coercion of a float (applied by Django's
   PositiveIntegerField on save and by DRF's IntegerField on serialisation) is
   modelled by int_trunc. -/

/-- Raw city payload of a quote request (CityDataSerializer,
src/shipper/serializers.py lines 334-340). -/
structure CityData where
  id : String
  name : String
  region_code : String
  country_code : String
  latitude : ℝ
  longitude : ℝ

/-- City row (src/shipper/models.py). -/
structure City where
  id : String
  name : String
  region_code : String
  country_code : String
  latitude : ℝ
  longitude : ℝ

/-- get_or_create_city (src/shipper/util/get_or_create_city.py): City.objects.get
by id, creating the row from the payload fields on DoesNotExist.  Returns the
resolved city and the updated city table. -/
def get_or_create_city (db : List City) (city_data : CityData) : City × List City :=
  match db.find? (fun c => c.id == city_data.id) with
  | some city => (city, db)
  | none =>
      let city : City :=
        { id := city_data.id, name := city_data.name, region_code := city_data.region_code
          country_code := city_data.country_code, latitude := city_data.latitude
          longitude := city_data.longitude }
      (city, db ++ [city])

/-- Python's round to the nearest integer with ties to even (the rounding used by
round() on floats and on Decimal with the default context). -/
noncomputable def round_half_even (y : ℝ) : ℤ :=
  let f := ⌊y⌋
  if y - f < 1 / 2 then f
  else if 1 / 2 < y - f then f + 1
  else if f % 2 = 0 then f else f + 1

/-- round(x, 2) as used throughout the pricing code. -/
noncomputable def round2 (x : ℝ) : ℝ := (round_half_even (x * 100) : ℝ) / 100

/-- Python's int() applied to a float: truncation toward zero. -/
noncomputable def int_trunc (x : ℝ) : ℤ := if 0 ≤ x then ⌊x⌋ else ⌈x⌉

/-- math.radians. -/
noncomputable def radians (deg : ℝ) : ℝ := deg * Real.pi / 180

/-- math.atan2(y, x): the angle of the point (x, y) in the standard branch cut. -/
noncomputable def atan2 (y x : ℝ) : ℝ :=
  if 0 < x then Real.arctan (y / x)
  else if x < 0 then
    if 0 ≤ y then Real.arctan (y / x) + Real.pi
    else Real.arctan (y / x) - Real.pi
  else
    if 0 < y then Real.pi / 2
    else if y < 0 then -(Real.pi / 2)
    else 0

/-- calculate_distance (src/shipper/util/calculate_distance.py): Haversine
distance in miles between the two raw payloads, rounded to 2 decimals. -/
noncomputable def calculate_distance (pickup dropoff : CityData) : ℝ :=
  let R : ℝ := 3958.8
  let lat1 := radians pickup.latitude
  let lon1 := radians pickup.longitude
  let lat2 := radians dropoff.latitude
  let lon2 := radians dropoff.longitude
  let dlat := lat2 - lat1
  let dlon := lon2 - lon1
  let a := Real.sin (dlat / 2) ^ 2 + Real.cos lat1 * Real.cos lat2 * Real.sin (dlon / 2) ^ 2
  let c := 2 * atan2 (Real.sqrt a) (Real.sqrt (1 - a))
  round2 (R * c)

/-- calculate_base_price (src/shipper/util/calculate_base_price.py): the
equipment multiplier dictionary lookup defaults to 1.0 for unknown keys. -/
noncomputable def calculate_base_price (miles : ℝ) (equipment : String) : ℝ :=
  let base_rate_per_mile : ℝ := 2.50
  let multiplier : ℝ :=
    if equipment = "dryVan" then 1.0
    else if equipment = "reefer" then 1.3
    else 1.0
  let base_fee : ℝ := 500.00
  round2 (miles * base_rate_per_mile * multiplier + base_fee)

/-- calculate_transit_time (src/shipper/util/calculate_transit_time.py):
max(1, ceil(miles / 500)). -/
noncomputable def calculate_transit_time (miles : ℝ) : ℤ :=
  max 1 ⌈miles / 500⌉

/-- PriceCalculation row (src/shipper/models.py lines 197-222).  The miles column
is a PositiveIntegerField, so the float handed to objects.create is coerced with
int() on save. -/
structure PriceCalculation where
  pickup_location : String
  dropoff_location : String
  equipment : String
  miles : ℤ
  base_price : ℝ
  min_transit_time : ℤ

/-- Serialised body of the quote endpoint response
(DistancePriceResponseSerializer, src/shipper/serializers.py lines 353-363):
miles and min_transit_time pass through IntegerField, hence int(). -/
structure QuoteResponse where
  miles : ℤ
  base_price : ℝ
  min_transit_time : ℤ
  driver_assist_fee : ℝ
  total_price_with_assist : ℝ

/-- calculate_distance_price (src/shipper/views.py lines 115-192): resolves both
cities, serves a cached PriceCalculation when one matches
(pickup, dropoff, equipment) — filter(...).first() is find? — and otherwise
computes distance, price and transit time from the raw payloads, persists a new
row and returns the serialised response. -/
noncomputable def calculate_distance_price (cityDB : List City)
    (priceDB : List PriceCalculation) (pickup_location_data dropoff_location_data : CityData)
    (equipment : String) : List City × List PriceCalculation × QuoteResponse :=
  let r1 := get_or_create_city cityDB pickup_location_data
  let pickup_city := r1.1
  let cityDB1 := r1.2
  let r2 := get_or_create_city cityDB1 dropoff_location_data
  let dropoff_city := r2.1
  let cityDB2 := r2.2
  match priceDB.find? (fun r => r.pickup_location == pickup_city.id &&
      r.dropoff_location == dropoff_city.id && r.equipment == equipment) with
  | some cached =>
      (cityDB2, priceDB,
        { miles := cached.miles
          base_price := cached.base_price
          min_transit_time := cached.min_transit_time
          driver_assist_fee := 150.00
          total_price_with_assist := cached.base_price + 150.00 })
  | none =>
      let distance_miles := calculate_distance pickup_location_data dropoff_location_data
      let base_price := calculate_base_price distance_miles equipment
      let min_transit_days := calculate_transit_time distance_miles
      let row : PriceCalculation :=
        { pickup_location := pickup_city.id
          dropoff_location := dropoff_city.id
          equipment := equipment
          miles := int_trunc distance_miles
          base_price := base_price
          min_transit_time := min_transit_days }
      (cityDB2, priceDB ++ [row],
        { miles := int_trunc distance_miles
          base_price := base_price
          min_transit_time := min_transit_days
          driver_assist_fee := 150.00
          total_price_with_assist := base_price + 150.00 })

/-- Spec-side definition, from the spec's words for the cache-miss step of
getQuote: distance via the great-circle (Haversine) formula on two lat/long
pairs, Earth radius 3958.8 miles, rounded to 2 decimals.  To be compared with
calculate_distance. -/
noncomputable def spec_haversine_miles (lat_p lon_p lat_d lon_d : ℝ) : ℝ :=
  let R : ℝ := 3958.8
  let lat1 := radians lat_p
  let lon1 := radians lon_p
  let lat2 := radians lat_d
  let lon2 := radians lon_d
  let dlat := lat2 - lat1
  let dlon := lon2 - lon1
  let a := Real.sin (dlat / 2) ^ 2 + Real.cos lat1 * Real.cos lat2 * Real.sin (dlon / 2) ^ 2
  let c := 2 * atan2 (Real.sqrt a) (Real.sqrt (1 - a))
  round2 (R * c)

/-- Spec-side definition: base_price = round(miles × 2.50 × equipmentMultiplier +
500.00, 2). -/
noncomputable def spec_base_price (miles multiplier : ℝ) : ℝ :=
  round2 (miles * 2.50 * multiplier + 500.00)

/-- Spec-side definition: min_transit_time = ceil(miles / 500), floored at
1 day. -/
noncomputable def spec_min_transit_time (miles : ℝ) : ℤ :=
  max ⌈miles / 500⌉ 1

/- Part 3: theorems about the payment reconciliation claims. -/

/-- Helper: a map that updates only records matching a predicate leaves a list
without matches unchanged. -/
theorem map_update_no_match {α : Type} (l : List α) (q : α → Prop) [DecidablePred q]
    (f : α → α) (h : ∀ a ∈ l, ¬ q a) :
    (l.map fun a => if q a then f a else a) = l := by
  induction l with
  | nil => rfl
  | cons a t ih =>
      have ha : ¬ q a := h a (List.mem_cons_self a t)
      have ht : ∀ b ∈ t, ¬ q b := fun b hb => h b (List.mem_cons_of_mem a hb)
      simp [ha, ih ht]

/-- C9: every persist of an Invoice recomputes total_amount = amount +
driver_assist_fee before writing; in particular the invoice rows written by the
payment-success transitions satisfy the invariant. -/
theorem invoice_total_amount_invariant :
    (∀ (fresh : String) (inv : Invoice),
        (Invoice.save fresh inv).total_amount =
          (Invoice.save fresh inv).amount + (Invoice.save fresh inv).driver_assist_fee) ∧
    (∀ (now : Nat) (fresh : String) (s : PayState),
        (mark_payment_successful now fresh s).invoice.total_amount =
          (mark_payment_successful now fresh s).invoice.amount +
            (mark_payment_successful now fresh s).invoice.driver_assist_fee) ∧
    (∀ (now : Nat) (fresh : String) (s : PayState),
        (webhook_mark_succeeded now fresh s).invoice.total_amount =
          (webhook_mark_succeeded now fresh s).invoice.amount +
            (webhook_mark_succeeded now fresh s).invoice.driver_assist_fee) ∧
    (∀ (intent_status : String) (now : Nat) (fresh : String) (s : PayState),
        (payment_status_update intent_status now fresh s).invoice =
            s.invoice ∨
          (payment_status_update intent_status now fresh s).invoice.total_amount =
            (payment_status_update intent_status now fresh s).invoice.amount +
              (payment_status_update intent_status now fresh s).invoice.driver_assist_fee) :=
  ⟨fun _ _ => rfl, fun _ _ _ => rfl, fun _ _ _ => rfl, by
    intro intent_status now fresh s
    by_cases h1 : s.payment.status ≠ stripe_status_map_poll intent_status
    · by_cases h2 : stripe_status_map_poll intent_status = "succeeded" ∧ s.invoice.status ≠ "paid"
      · right
        obtain ⟨h2a, h2b⟩ := h2
        have h1s : s.payment.status ≠ "succeeded" := by rw [h2a] at h1; exact h1
        simp [payment_status_update, Invoice.save, h2a, h2b, h1s]
      · left
        simp [payment_status_update, h1, h2]
    · left
      simp [payment_status_update, h1]⟩

/-- C6: the three copies of the processor-status mapping coincide, reproduce the
fixed table exactly, and send any unrecognized processor status to "pending"
without failing. -/
theorem stripe_status_mapping_table :
    (∀ s : String, map_stripe_status_create s = stripe_status_map_poll s ∧
        map_stripe_status_confirm s = stripe_status_map_poll s) ∧
    (map_stripe_status_create "requires_payment_method" = "failed" ∧
     map_stripe_status_create "requires_confirmation" = "pending" ∧
     map_stripe_status_create "requires_action" = "requires_action" ∧
     map_stripe_status_create "processing" = "processing" ∧
     map_stripe_status_create "succeeded" = "succeeded" ∧
     map_stripe_status_create "canceled" = "cancelled") ∧
    (∀ s : String, s ≠ "requires_payment_method" → s ≠ "requires_confirmation" →
        s ≠ "requires_action" → s ≠ "processing" → s ≠ "succeeded" → s ≠ "canceled" →
        map_stripe_status_create s = "pending") := by
  refine ⟨fun s => ⟨rfl, rfl⟩, ⟨rfl, rfl, rfl, rfl, rfl, rfl⟩, ?_⟩
  intro s h1 h2 h3 h4 h5 h6
  simp [map_stripe_status_create, h1, h2, h3, h4, h5, h6]

/-- Witness for stripe_status_mapping_table at the unrecognized status
"banana". -/
theorem stripe_status_mapping_table_witness :
    map_stripe_status_create "banana" = "pending" :=
  stripe_status_mapping_table.2.2 "banana" (by decide) (by decide) (by decide)
    (by decide) (by decide) (by decide)

/-- Concrete record whose payment is in the terminal status "cancelled", used for
the C3 statements. -/
def cancelled_record : PayState :=
  { payment := { stripe_payment_intent_id := "pi_1", status := "cancelled", amount := 0
                 failure_reason := "" }
    invoice := { invoice_number := "INV-1", status := "pending", amount := 0
                 driver_assist_fee := 0, total_amount := 0, paid_at := none }
    shipment := { status := "upcoming" } }

/-- C3 is false as stated: a payment_intent.succeeded webhook event for a Payment
already in the terminal status "cancelled" moves it to "succeeded", a transition
out of a terminal state. -/
theorem terminal_state_counterexample :
    cancelled_record.payment.status = "cancelled" ∧
    ((stripe_webhook
        (.ok { type := "payment_intent.succeeded"
               object := { id := "pi_1", last_payment_error_message := none } })
        5 "F" [cancelled_record]).1.map fun r => r.payment.status) = ["succeeded"] := by
  exact ⟨rfl, rfl⟩

/-- C3 (amended): reconciling a Payment is a no-op exactly when the processor
reports a status that maps to the current local status — the poll path then
changes nothing — while no entry point checks for terminal states: the webhook
success branch and the synchronous confirmation overwrite the local status with
the mapped processor status unconditionally, even out of a terminal state. -/
theorem reconcile_matching_status_noop :
    (∀ (intent_status : String) (now : Nat) (fresh : String) (s : PayState),
        stripe_status_map_poll intent_status = s.payment.status →
        payment_status_update intent_status now fresh s = s) ∧
    (∀ (now : Nat) (fresh : String) (s : PayState),
        (webhook_mark_succeeded now fresh s).payment.status = "succeeded") ∧
    (∀ (i c : String) (now : Nat) (fresh : String) (s : PayState),
        confirm_payment (.ok { id := i, client_secret := c, status := "succeeded" })
            now fresh s =
          .ok (mark_payment_successful_confirm now fresh
                { s with payment := { s.payment with status := "succeeded" } },
              "succeeded", false)) := by
  refine ⟨?_, fun _ _ _ => rfl, fun _ _ _ _ _ => rfl⟩
  intro intent_status now fresh s h
  simp [payment_status_update, h]

/-- Witness for reconcile_matching_status_noop: polling a cancelled payment whose
processor intent also reports canceled leaves the record unchanged. -/
theorem reconcile_matching_status_noop_witness :
    payment_status_update "canceled" 3 "F" cancelled_record = cancelled_record :=
  reconcile_matching_status_noop.1 "canceled" 3 "F" cancelled_record rfl

/-- Concrete all-pending record for the C1 statements. -/
def pending_record : PayState :=
  { payment := { stripe_payment_intent_id := "pi_2", status := "pending", amount := 0
                 failure_reason := "" }
    invoice := { invoice_number := "INV-2", status := "pending", amount := 0
                 driver_assist_fee := 0, total_amount := 0, paid_at := none }
    shipment := { status := "upcoming" } }

/-- C1 is false as stated: running the poll success-transition at time 1 and then
the webhook success-transition at time 2 does not leave a single unchanged
paid_at — the webhook overwrites it. -/
theorem success_transition_paid_at_counterexample :
    (payment_status_update "succeeded" 1 "A" pending_record).invoice.paid_at = some 1 ∧
    (webhook_mark_succeeded 2 "B"
        (payment_status_update "succeeded" 1 "A" pending_record)).invoice.paid_at = some 2 ∧
    (webhook_mark_succeeded 2 "B"
        (payment_status_update "succeeded" 1 "A" pending_record)).invoice.paid_at ≠
      (payment_status_update "succeeded" 1 "A" pending_record).invoice.paid_at := by
  refine ⟨by decide, by decide, by decide⟩

/-- C1 (amended): every success transition sets Payment.status = succeeded,
Invoice.status = paid and Shipment.status = inprogress; the poll entry point run
after a webhook is a no-op (so webhook-then-poll keeps a single paid_at), but the
webhook entry point is unguarded and re-stamps Invoice.paid_at with its own time,
so poll-then-webhook ends with paid_at equal to the webhook time. -/
theorem success_transition_idempotence :
    (∀ (t1 t2 : Nat) (f1 f2 : String) (s : PayState),
        payment_status_update "succeeded" t2 f2 (webhook_mark_succeeded t1 f1 s) =
          webhook_mark_succeeded t1 f1 s) ∧
    (∀ (t1 t2 : Nat) (f1 f2 : String) (s : PayState),
        (webhook_mark_succeeded t2 f2
            (payment_status_update "succeeded" t1 f1 s)).payment.status = "succeeded" ∧
        (webhook_mark_succeeded t2 f2
            (payment_status_update "succeeded" t1 f1 s)).invoice.status = "paid" ∧
        (webhook_mark_succeeded t2 f2
            (payment_status_update "succeeded" t1 f1 s)).invoice.paid_at = some t2 ∧
        (webhook_mark_succeeded t2 f2
            (payment_status_update "succeeded" t1 f1 s)).shipment.status = "inprogress") := by
  constructor
  · intro t1 t2 f1 f2 s
    simp [payment_status_update, webhook_mark_succeeded, stripe_status_map_poll]
  · intro t1 t2 f1 f2 s
    exact ⟨rfl, rfl, rfl, rfl⟩

/-- C8: a validly-signed webhook event whose payment-intent id matches no stored
Payment mutates nothing and the endpoint still reports success, whatever the
event type. -/
theorem webhook_unknown_payment_noop (ev : StripeEvent) (now : Nat) (fresh : String)
    (db : List PayState)
    (h : ∀ r ∈ db, r.payment.stripe_payment_intent_id ≠ ev.object.id) :
    stripe_webhook (.ok ev) now fresh db = (db, { body := "success", http_status := 200 }) := by
  have hmap : ∀ f : PayState → PayState,
      (db.map fun r =>
        if r.payment.stripe_payment_intent_id = ev.object.id then f r else r) = db :=
    fun f => map_update_no_match db _ f h
  unfold stripe_webhook
  by_cases h1 : ev.type = "payment_intent.succeeded"
  · simp [h1, hmap]
  · by_cases h2 : ev.type = "payment_intent.payment_failed"
    · simp [h1, h2, hmap]
    · by_cases h3 : ev.type = "payment_intent.requires_action"
      · simp [h1, h2, h3, hmap]
      · simp [h1, h2, h3]

/-- Witness for webhook_unknown_payment_noop: a succeeded event for intent pi_9
leaves a one-record database with intent pi_1 untouched. -/
theorem webhook_unknown_payment_noop_witness :
    stripe_webhook
        (.ok { type := "payment_intent.succeeded"
               object := { id := "pi_9", last_payment_error_message := none } })
        7 "F" [pending_record] =
      ([pending_record], { body := "success", http_status := 200 }) :=
  webhook_unknown_payment_noop _ 7 "F" [pending_record] (by decide)

/-- Pre-existing pending invoice for the C2 evaluation. -/
def preexisting_invoice : Invoice :=
  { invoice_number := "INV-OLD", status := "pending", amount := 100
    driver_assist_fee := 0, total_amount := 100, paid_at := none }

/-- C2: evaluation at the failing input.  When the shipment already has a pending
invoice and the processor call fails, the except handler of
PaymentIntentCreateSerializer.create deletes that pre-existing invoice (its guard
`not hasattr(shipment, "invoice") or shipment.invoice == invoice` is true), so no
invoice row survives, contrary to the claim and to the code comment saying only a
just-created invoice is deleted.  The just-created case and the surfaced error
message behave as claimed. -/
theorem rollback_deletes_preexisting_invoice :
    (payment_intent_create (some preexisting_invoice) (some 100) false
        (.error "card declined") { status := "upcoming" } 0 "F").invoice_row = none ∧
    (payment_intent_create (some preexisting_invoice) (some 100) false
        (.error "card declined") { status := "upcoming" } 0 "F").result =
      .error "Payment failed: card declined" ∧
    (payment_intent_create none (some 100) false
        (.error "card declined") { status := "upcoming" } 0 "F").invoice_row = none := by
  refine ⟨?_, rfl, ?_⟩ <;> simp [payment_intent_create, preexisting_invoice]

/- Part 4: helper lemmas for the quote engine. -/

/-- Helper: the city returned by get_or_create_city always carries the requested
id. -/
theorem get_or_create_city_id (db : List City) (c : CityData) :
    ((get_or_create_city db c).1).id = c.id := by
  unfold get_or_create_city
  cases hfind : db.find? (fun x => x.id == c.id) with
  | none => simp [hfind]
  | some city =>
      have h2 := List.find?_some hfind
      simp only [hfind]
      simpa using h2

/-- Helper: rounding zero gives zero. -/
theorem round2_zero : round2 0 = 0 := by
  unfold round2 round_half_even
  norm_num

/-- Helper: 500.00 is already rounded to 2 decimals. -/
theorem round2_five_hundred : round2 500.00 = 500.00 := by
  unfold round2 round_half_even
  norm_num

/-- Helper: half-even rounding never goes below the floor. -/
theorem round_half_even_ge_floor (y : ℝ) : ⌊y⌋ ≤ round_half_even y := by
  simp only [round_half_even]
  split_ifs <;> omega

/-- Helper: truncation of a real at least 1 is at least 1. -/
theorem int_trunc_pos_of_one_le {x : ℝ} (h : 1 ≤ x) : 1 ≤ int_trunc x := by
  unfold int_trunc
  rw [if_pos (le_trans zero_le_one h)]
  exact Int.le_floor.mpr (by exact_mod_cast h)

/-- Helper: truncating zero gives zero. -/
theorem int_trunc_zero : int_trunc 0 = 0 := by
  unfold int_trunc
  norm_num

/-- Helper: the source distance function is the spec Haversine formula applied to
the raw payload coordinates. -/
theorem calculate_distance_eq_spec (p d : CityData) :
    calculate_distance p d =
      spec_haversine_miles p.latitude p.longitude d.latitude d.longitude := rfl

/-- Helper: the Haversine distance from a point to itself is zero. -/
theorem spec_haversine_same_point (a b : ℝ) : spec_haversine_miles a b a b = 0 := by
  simp only [spec_haversine_miles, sub_self, zero_div, Real.sin_zero, ne_eq,
    OfNat.ofNat_ne_zero, not_false_eq_true, zero_pow, mul_zero, add_zero, Real.sqrt_zero,
    sub_zero, Real.sqrt_one]
  have hat : atan2 0 1 = 0 := by
    unfold atan2
    rw [if_pos (by norm_num : (0:ℝ) < 1)]
    simp [Real.arctan_zero]
  rw [hat]
  simpa using round2_zero

/-- Helper: equal raw coordinates give distance zero in the source function. -/
theorem calculate_distance_same_coords (p d : CityData) (hlat : p.latitude = d.latitude)
    (hlon : p.longitude = d.longitude) : calculate_distance p d = 0 := by
  rw [calculate_distance_eq_spec, hlat, hlon]
  exact spec_haversine_same_point _ _

/-- Helper: the spec Haversine distance between (0,0) and (0,180) is the rounded
half circumference. -/
theorem spec_haversine_equator_antipodal :
    spec_haversine_miles 0 0 0 180 = round2 (3958.8 * Real.pi) := by
  have h0 : radians 0 = 0 := by unfold radians; ring
  have h180 : radians 180 = Real.pi := by unfold radians; ring
  simp only [spec_haversine_miles, h0, h180, sub_self, sub_zero, zero_div, Real.sin_zero,
    ne_eq, OfNat.ofNat_ne_zero, not_false_eq_true, zero_pow, Real.cos_zero, one_mul,
    Real.sin_pi_div_two, one_pow, zero_add, Real.sqrt_one, sub_self, Real.sqrt_zero]
  have hat : atan2 1 0 = Real.pi / 2 := by
    unfold atan2
    rw [if_neg (lt_irrefl 0), if_neg (lt_irrefl 0), if_pos (by norm_num : (0:ℝ) < 1)]
  rw [hat]
  ring_nf

/-- Helper: the source distance between raw coordinates (0,0) and (0,180) is the
rounded half circumference. -/
theorem calculate_distance_equator_antipodal (p d : CityData) (h1 : p.latitude = 0)
    (h2 : p.longitude = 0) (h3 : d.latitude = 0) (h4 : d.longitude = 180) :
    calculate_distance p d = round2 (3958.8 * Real.pi) := by
  rw [calculate_distance_eq_spec, h1, h2, h3, h4]
  exact spec_haversine_equator_antipodal

/-- Helper: the rounded half circumference is at least one mile. -/
theorem round2_antipodal_ge_one : 1 ≤ round2 (3958.8 * Real.pi) := by
  have hpi : (3:ℝ) < Real.pi := Real.pi_gt_three
  have hy : (1187640:ℝ) ≤ 3958.8 * Real.pi * 100 := by nlinarith
  have hfloor : (1187640:ℤ) ≤ ⌊3958.8 * Real.pi * 100⌋ :=
    Int.le_floor.mpr (by exact_mod_cast hy)
  have hrhe : (1187640:ℤ) ≤ round_half_even (3958.8 * Real.pi * 100) :=
    le_trans hfloor (round_half_even_ge_floor _)
  unfold round2
  have hc : (1187640:ℝ) ≤ (round_half_even (3958.8 * Real.pi * 100) : ℝ) := by
    exact_mod_cast hrhe
  linarith

/-- Helper: the truncated rounded half circumference is nonzero. -/
theorem int_trunc_antipodal_ne_zero : int_trunc (round2 (3958.8 * Real.pi)) ≠ 0 := by
  have := int_trunc_pos_of_one_le round2_antipodal_ge_one
  omega

/-- Helper: when the price table holds a matching row, calculate_distance_price
serves it unchanged. -/
theorem calculate_distance_price_hit (cityDB : List City)
    (priceDB : List PriceCalculation) (p d : CityData) (e : String)
    (row : PriceCalculation)
    (hfind : priceDB.find? (fun r =>
        r.pickup_location == ((get_or_create_city cityDB p).1).id &&
        r.dropoff_location ==
          ((get_or_create_city (get_or_create_city cityDB p).2 d).1).id &&
        r.equipment == e) = some row) :
    calculate_distance_price cityDB priceDB p d e =
      ((get_or_create_city (get_or_create_city cityDB p).2 d).2, priceDB,
       { miles := row.miles
         base_price := row.base_price
         min_transit_time := row.min_transit_time
         driver_assist_fee := 150.00
         total_price_with_assist := row.base_price + 150.00 }) := by
  simp only [calculate_distance_price, hfind]

/-- C4: on an initially empty cache, calling the quote endpoint twice with the
same pickup, dropoff and equipment returns identical miles, base_price and
min_transit_time in both responses, and afterwards exactly one cached
PriceCalculation row exists for that (pickup id, dropoff id, equipment) key. -/
theorem quote_cache_idempotent (cityDB : List City) (p d : CityData) (e : String) :
    (calculate_distance_price
        (calculate_distance_price cityDB [] p d e).1
        (calculate_distance_price cityDB [] p d e).2.1 p d e).2.2.miles =
      (calculate_distance_price cityDB [] p d e).2.2.miles ∧
    (calculate_distance_price
        (calculate_distance_price cityDB [] p d e).1
        (calculate_distance_price cityDB [] p d e).2.1 p d e).2.2.base_price =
      (calculate_distance_price cityDB [] p d e).2.2.base_price ∧
    (calculate_distance_price
        (calculate_distance_price cityDB [] p d e).1
        (calculate_distance_price cityDB [] p d e).2.1 p d e).2.2.min_transit_time =
      (calculate_distance_price cityDB [] p d e).2.2.min_transit_time ∧
    ((calculate_distance_price
        (calculate_distance_price cityDB [] p d e).1
        (calculate_distance_price cityDB [] p d e).2.1 p d e).2.1.filter fun r =>
      r.pickup_location == p.id && r.dropoff_location == d.id &&
        r.equipment == e).length = 1 := by
  have hrow : calculate_distance_price cityDB [] p d e =
      ((get_or_create_city (get_or_create_city cityDB p).2 d).2,
       [{ pickup_location := ((get_or_create_city cityDB p).1).id
          dropoff_location :=
            ((get_or_create_city (get_or_create_city cityDB p).2 d).1).id
          equipment := e
          miles := int_trunc (calculate_distance p d)
          base_price := calculate_base_price (calculate_distance p d) e
          min_transit_time := calculate_transit_time (calculate_distance p d) }],
       { miles := int_trunc (calculate_distance p d)
         base_price := calculate_base_price (calculate_distance p d) e
         min_transit_time := calculate_transit_time (calculate_distance p d)
         driver_assist_fee := 150.00
         total_price_with_assist :=
           calculate_base_price (calculate_distance p d) e + 150.00 }) := rfl
  rw [hrow]
  rw [calculate_distance_price_hit _ _ _ _ _ _ (List.find?_cons_of_pos _ (by
    simp [get_or_create_city_id]))]
  refine ⟨rfl, rfl, rfl, ?_⟩
  simp [List.filter, get_or_create_city_id]

/-- C5 (amended): on a cache miss the quote is computed from the raw request
coordinates by the spec formulas — Haversine miles rounded to 2 decimals,
base_price = round(miles × 2.50 × multiplier + 500.00, 2) with multiplier 1.0
for dryVan and 1.3 for reefer, min_transit_time = ceil(miles/500) floored at 1 —
and the persisted row and serialised response carry miles truncated to an
integer. -/
theorem quote_miss_formulas (cityDB : List City) (p d : CityData) :
    ((calculate_distance_price cityDB [] p d "dryVan").2.2.miles =
        int_trunc (spec_haversine_miles p.latitude p.longitude d.latitude d.longitude) ∧
     (calculate_distance_price cityDB [] p d "dryVan").2.2.base_price =
        spec_base_price (spec_haversine_miles p.latitude p.longitude d.latitude d.longitude) 1.0 ∧
     (calculate_distance_price cityDB [] p d "dryVan").2.2.min_transit_time =
        spec_min_transit_time (spec_haversine_miles p.latitude p.longitude d.latitude d.longitude) ∧
     (calculate_distance_price cityDB [] p d "dryVan").2.1 =
       [{ pickup_location := p.id
          dropoff_location := d.id
          equipment := "dryVan"
          miles := int_trunc (spec_haversine_miles p.latitude p.longitude d.latitude d.longitude)
          base_price := spec_base_price (spec_haversine_miles p.latitude p.longitude d.latitude d.longitude) 1.0
          min_transit_time := spec_min_transit_time (spec_haversine_miles p.latitude p.longitude d.latitude d.longitude) }]) ∧
    ((calculate_distance_price cityDB [] p d "reefer").2.2.miles =
        int_trunc (spec_haversine_miles p.latitude p.longitude d.latitude d.longitude) ∧
     (calculate_distance_price cityDB [] p d "reefer").2.2.base_price =
        spec_base_price (spec_haversine_miles p.latitude p.longitude d.latitude d.longitude) 1.3 ∧
     (calculate_distance_price cityDB [] p d "reefer").2.2.min_transit_time =
        spec_min_transit_time (spec_haversine_miles p.latitude p.longitude d.latitude d.longitude) ∧
     (calculate_distance_price cityDB [] p d "reefer").2.1 =
       [{ pickup_location := p.id
          dropoff_location := d.id
          equipment := "reefer"
          miles := int_trunc (spec_haversine_miles p.latitude p.longitude d.latitude d.longitude)
          base_price := spec_base_price (spec_haversine_miles p.latitude p.longitude d.latitude d.longitude) 1.3
          min_transit_time := spec_min_transit_time (spec_haversine_miles p.latitude p.longitude d.latitude d.longitude) }]) := by
  have hd := calculate_distance_eq_spec p d
  constructor
  · refine ⟨?_, ?_, ?_, ?_⟩
    · show int_trunc (calculate_distance p d) = _
      rw [hd]
    · show calculate_base_price (calculate_distance p d) "dryVan" = _
      rw [hd]
      simp [calculate_base_price, spec_base_price]
    · show calculate_transit_time (calculate_distance p d) = _
      rw [hd]
      simp [calculate_transit_time, spec_min_transit_time, max_comm]
    · show [_] = _
      rw [List.cons.injEq]
      refine ⟨?_, rfl⟩
      rw [PriceCalculation.mk.injEq]
      refine ⟨get_or_create_city_id _ _, get_or_create_city_id _ _, rfl, ?_, ?_, ?_⟩
      · rw [hd]
      · rw [hd]
        simp [calculate_base_price, spec_base_price]
      · rw [hd]
        simp [calculate_transit_time, spec_min_transit_time, max_comm]
  · refine ⟨?_, ?_, ?_, ?_⟩
    · show int_trunc (calculate_distance p d) = _
      rw [hd]
    · show calculate_base_price (calculate_distance p d) "reefer" = _
      rw [hd]
      simp [calculate_base_price, spec_base_price]
    · show calculate_transit_time (calculate_distance p d) = _
      rw [hd]
      simp [calculate_transit_time, spec_min_transit_time, max_comm]
    · show [_] = _
      rw [List.cons.injEq]
      refine ⟨?_, rfl⟩
      rw [PriceCalculation.mk.injEq]
      refine ⟨get_or_create_city_id _ _, get_or_create_city_id _ _, rfl, ?_, ?_, ?_⟩
      · rw [hd]
      · rw [hd]
        simp [calculate_base_price, spec_base_price]
      · rw [hd]
        simp [calculate_transit_time, spec_min_transit_time, max_comm]

/-- Stored city 1 whose coordinates differ from the raw payload below. -/
def stored_city_one : City :=
  { id := "1", name := "A", region_code := "", country_code := ""
    latitude := 0, longitude := 180 }

/-- Raw payload referencing city 1 but carrying different coordinates. -/
def raw_pickup_one : CityData :=
  { id := "1", name := "A", region_code := "", country_code := ""
    latitude := 0, longitude := 0 }

/-- Raw payload for a fresh city 2 at (0, 180). -/
def raw_dropoff_two : CityData :=
  { id := "2", name := "B", region_code := "", country_code := ""
    latitude := 0, longitude := 180 }

/-- C5 is false as stated: the resolved cities for this request coincide at
(0, 180), so miles computed from the resolved lat/long would be 0, yet the code
computes the distance from the raw payload coordinates (0,0)-(0,180) and returns
a nonzero miles value. -/
theorem quote_resolved_coordinates_counterexample :
    ((get_or_create_city [stored_city_one] raw_pickup_one).1.latitude = 0 ∧
     (get_or_create_city [stored_city_one] raw_pickup_one).1.longitude = 180) ∧
    ((get_or_create_city (get_or_create_city [stored_city_one] raw_pickup_one).2
        raw_dropoff_two).1.latitude = 0 ∧
     (get_or_create_city (get_or_create_city [stored_city_one] raw_pickup_one).2
        raw_dropoff_two).1.longitude = 180) ∧
    int_trunc (spec_haversine_miles 0 180 0 180) = 0 ∧
    (calculate_distance_price [stored_city_one] [] raw_pickup_one raw_dropoff_two
        "dryVan").2.2.miles ≠ 0 := by
  refine ⟨⟨rfl, rfl⟩, ⟨rfl, rfl⟩, ?_, ?_⟩
  · rw [spec_haversine_same_point]
    exact int_trunc_zero
  · show int_trunc (calculate_distance raw_pickup_one raw_dropoff_two) ≠ 0
    rw [calculate_distance_equator_antipodal _ _ rfl rfl rfl rfl]
    exact int_trunc_antipodal_ne_zero

/-- C7 (amended): a quote computed on a cache miss for a request whose pickup and
dropoff payloads carry the same latitude and longitude has miles = 0,
base_price = 500.00 and min_transit_time = 1, for every equipment string.  Same
city id alone does not suffice, because the distance is computed from the raw
payload coordinates. -/
theorem same_coordinates_quote (cityDB : List City) (p d : CityData) (e : String)
    (hlat : p.latitude = d.latitude) (hlon : p.longitude = d.longitude) :
    (calculate_distance_price cityDB [] p d e).2.2.miles = 0 ∧
    (calculate_distance_price cityDB [] p d e).2.2.base_price = 500.00 ∧
    (calculate_distance_price cityDB [] p d e).2.2.min_transit_time = 1 := by
  have hdist := calculate_distance_same_coords p d hlat hlon
  refine ⟨?_, ?_, ?_⟩
  · show int_trunc (calculate_distance p d) = 0
    rw [hdist]
    exact int_trunc_zero
  · show calculate_base_price (calculate_distance p d) e = 500.00
    rw [hdist]
    simp only [calculate_base_price, zero_mul, zero_add]
    exact round2_five_hundred
  · show calculate_transit_time (calculate_distance p d) = 1
    rw [hdist]
    simp [calculate_transit_time]

/-- Witness for same_coordinates_quote: a request repeating city 1 at (0,0) with
reefer equipment. -/
theorem same_coordinates_quote_witness :
    (calculate_distance_price [] []
        { id := "1", name := "A", region_code := "", country_code := ""
          latitude := 0, longitude := 0 }
        { id := "1", name := "A", region_code := "", country_code := ""
          latitude := 0, longitude := 0 } "reefer").2.2.miles = 0 ∧
    (calculate_distance_price [] []
        { id := "1", name := "A", region_code := "", country_code := ""
          latitude := 0, longitude := 0 }
        { id := "1", name := "A", region_code := "", country_code := ""
          latitude := 0, longitude := 0 } "reefer").2.2.base_price = 500.00 ∧
    (calculate_distance_price [] []
        { id := "1", name := "A", region_code := "", country_code := ""
          latitude := 0, longitude := 0 }
        { id := "1", name := "A", region_code := "", country_code := ""
          latitude := 0, longitude := 0 } "reefer").2.2.min_transit_time = 1 :=
  same_coordinates_quote [] _ _ "reefer" rfl rfl

/-- Raw pickup payload for city id 1 at (0, 0). -/
def raw_pickup_same_id : CityData :=
  { id := "1", name := "A", region_code := "", country_code := ""
    latitude := 0, longitude := 0 }

/-- Raw dropoff payload reusing city id 1 but at (0, 180). -/
def raw_dropoff_same_id : CityData :=
  { id := "1", name := "A", region_code := "", country_code := ""
    latitude := 0, longitude := 180 }

/-- C7 is false as stated: a request whose pickup and dropoff share the same city
id but carry different raw coordinates gets a nonzero miles value, because the
distance is computed from the raw payloads, not the shared resolved city. -/
theorem same_city_id_counterexample :
    raw_pickup_same_id.id = raw_dropoff_same_id.id ∧
    (calculate_distance_price [] [] raw_pickup_same_id raw_dropoff_same_id
        "dryVan").2.2.miles ≠ 0 := by
  refine ⟨rfl, ?_⟩
  show int_trunc (calculate_distance raw_pickup_same_id raw_dropoff_same_id) ≠ 0
  rw [calculate_distance_equator_antipodal _ _ rfl rfl rfl rfl]
  exact int_trunc_antipodal_ne_zero

/-- C10: calculate_base_price never fails on an unknown equipment string — the
multiplier lookup falls back to 1.0, so the price equals the dryVan price for
every miles value. -/
theorem unknown_equipment_prices_as_dry_van (miles : ℝ) (e : String)
    (h1 : e ≠ "dryVan") (h2 : e ≠ "reefer") :
    calculate_base_price miles e = calculate_base_price miles "dryVan" := by
  simp [calculate_base_price, h1, h2]

/-- Witness for unknown_equipment_prices_as_dry_van at equipment flatbed. -/
theorem unknown_equipment_prices_as_dry_van_witness :
    calculate_base_price 100 "flatbed" = calculate_base_price 100 "dryVan" :=
  unknown_equipment_prices_as_dry_van 100 "flatbed" (by decide) (by decide)
